import Mathlib

/-!
Verification of the incremental crawl-and-normalize pipeline of the
morocco-property-tool repository (src/scraper.py and its drivers).

The Python code is shallowly embedded: pure helpers become Lean functions on
`String` / `List Char`; the BeautifulSoup document is represented by the
results of the queries the code performs on it (a `Soup` structure); the
Supabase / R2 collaborators are represented by explicit state values and
write events; a raised Python exception is an `Except.error` value.
Machine floats are modelled as exact rationals (only parse success/failure
and small decimal literals matter here); Unicode-sensitive Python string
methods (`strip`, `lower`, `\d`) are modelled on their ASCII behaviour,
which covers every input appearing in the theorems below.
-/

/-- Whitespace test used to model Python `str.strip()` and `\s`
(ASCII subset of the Unicode whitespace Python uses). -/
def is_py_space (c : Char) : Bool :=
  c == ' ' || c == '\t' || c == '\n' || c == '\r' || c == '\x0b' || c == '\x0c'

/-- Model of Python `str.strip()` on the character list of a string. -/
def py_strip_chars (cs : List Char) : List Char :=
  ((cs.dropWhile is_py_space).reverse.dropWhile is_py_space).reverse

/-- Model of Python `str.strip()`. -/
def py_strip (s : String) : String :=
  String.mk (py_strip_chars s.data)

/-- Model of Python `str.lower()` (ASCII). -/
def py_lower (s : String) : String :=
  String.mk (s.data.map Char.toLower)

/-- `needle` occurs as a contiguous subsequence of `hay`
(model of the Python `in` operator on strings). -/
def list_contains_sub (needle : List Char) : List Char → Bool
  | [] => needle.isEmpty
  | c :: t => needle.isPrefixOf (c :: t) || list_contains_sub needle t

/-- Model of Python `needle in hay` for strings. -/
def contains_sub (hay needle : String) : Bool :=
  list_contains_sub needle.data hay.data

/-- Model of Python `s.startswith(c)` for a one-character pattern. -/
def starts_with_char (s : String) (c : Char) : Bool :=
  match s.data with
  | [] => false
  | d :: _ => d == c

/-- Numeric value of a list of decimal digit characters
(model of Python `int` on an all-digit string). -/
def digits_to_nat (ds : List Char) : Nat :=
  ds.foldl (fun n c => n * 10 + (c.toNat - 48)) 0

/-- Model of Python `str.split(sep)` for a one-character separator
(every occurrence splits; empty pieces are kept). -/
def split_on_char (sep : Char) : List Char → List (List Char)
  | [] => [[]]
  | c :: t =>
    if c == sep then [] :: split_on_char sep t
    else
      match split_on_char sep t with
      | [] => [[c]]
      | h :: r => (c :: h) :: r

/-- All maximal runs of decimal digits in a string, in order
(model of Python `re.findall(r"\d+", s)`, ASCII digits). -/
def digit_runs : List Char → List (List Char)
  | [] => []
  | c :: t =>
    if c.isDigit then
      match digit_runs t with
      | r :: rs =>
        -- a run continues only if it was started by the immediately following char
        match t with
        | d :: _ => if d.isDigit then (c :: r) :: rs else [c] :: (r :: rs)
        | [] => [c] :: rs
      | [] => [[c]]
    else digit_runs t

/-- `src/scraper.py:443` `clean_integer`: remove every non-digit character and
read the remainder as an integer; empty or falsy input gives `None`. -/
def clean_integer (number_str : Option String) : Option Nat :=
  match number_str with
  | none => none
  | some s =>
    if s = "" then none  -- Python: `if not number_str`
    else
      let cleaned := s.data.filter Char.isDigit
      if cleaned.isEmpty then none else some (digits_to_nat cleaned)

/-- `src/scraper.py:464` `clean_text`: strip, with falsy input giving `None`. -/
def clean_text (text : Option String) : Option String :=
  match text with
  | none => none
  | some s => if s = "" then none else some (py_strip s)

/-- Model of Python `s.split()` with no argument: maximal non-whitespace
runs, empties dropped. The accumulator carries the current word reversed. -/
def split_ws : List Char → List Char → List (List Char)
  | [], acc => if acc.isEmpty then [] else [acc.reverse]
  | c :: t, acc =>
    if is_py_space c then
      if acc.isEmpty then split_ws t [] else acc.reverse :: split_ws t []
    else split_ws t (c :: acc)

/-- Join character-list words with single spaces, model of `" ".join(...)`. -/
def join_with_space : List (List Char) → List Char
  | [] => []
  | [w] => w
  | w :: v :: ws => w ++ ' ' :: join_with_space (v :: ws)

/-- `src/scraper.py:467` `clean_att`: collapse whitespace runs to single
spaces, model of `" ".join(s.split()).strip()`. -/
def clean_att (s : String) : String :=
  String.mk (py_strip_chars (join_with_space (split_ws s.data [])))

/-- `src/scraper.py:470` `clean_age`: keep an age range only when the text
contains "years" and exactly two numbers, rendered as "a-b". -/
def clean_age (age_str : Option String) : Option String :=
  match age_str with
  | none => none
  | some s =>
    if s = "" then none  -- Python: `if not age_str`
    else if contains_sub (py_lower s) "years" then
      match digit_runs s.data with
      | [a, b] =>
        some (toString (digits_to_nat a) ++ "-" ++ toString (digits_to_nat b))
      | _ => none
    else none

/-- Word character test for the `\w` regex class (ASCII). -/
def is_word_char (c : Char) : Bool :=
  c.isAlphanum || c == '_'

/-- Matches `rooms?\b` (case-insensitive) at the head of the list:
"room" with an optional trailing "s", followed by a non-word boundary. -/
def rooms_word_at (cs : List Char) : Bool :=
  match cs.map Char.toLower with
  | 'r' :: 'o' :: 'o' :: 'm' :: rest =>
    match rest with
    | 's' :: rest2 =>
      match rest2 with
      | [] => true
      | d :: _ => !is_word_char d
    | [] => true
    | d :: _ => !is_word_char d
  | _ => false

/-- One attempt of the `clean_rooms` pattern at the current position:
digits already taken, then `\s*`, then an optional `\w+\s`, then `rooms?\b`. -/
def rooms_tail_matches (cs : List Char) : Bool :=
  let afterWs := cs.dropWhile is_py_space
  let wordRun := afterWs.takeWhile is_word_char
  let direct := rooms_word_at afterWs
  let withWord :=
    !wordRun.isEmpty &&
      (match afterWs.drop wordRun.length with
       | w :: rest2 => is_py_space w && rooms_word_at rest2
       | [] => false)
  direct || withWord

/-- Leftmost match of `(\d+)\s*(?:\w+\s)?rooms?\b` (case-insensitive),
returning the digit group. -/
def rooms_scan : List Char → Option Nat
  | [] => none
  | c :: t =>
    if c.isDigit then
      let ds := (c :: t).takeWhile Char.isDigit
      if rooms_tail_matches ((c :: t).dropWhile Char.isDigit) then
        some (digits_to_nat ds)
      else rooms_scan t
    else rooms_scan t

/-- `src/scraper.py:486` `clean_rooms`: extract "N ... room(s)" from the
description text with the regex above. -/
def clean_rooms (description : Option String) : Option Nat :=
  match description with
  | none => none
  | some s => if s = "" then none else rooms_scan s.data

/-- `src/scraper.py:495` `clean_condition`. The source reads:
```
elif cond_str == 'Due for reform':
    cond_str == 'Old'
    return cond_str
```
The middle line is a comparison whose result is discarded (not an
assignment), so the branch returns the input string unchanged. The
embedding reproduces that behaviour. The surrounding `try`/`except
ValueError` can never fire. -/
def clean_condition (cond_str : Option String) : Option String :=
  match cond_str with
  | none => none
  | some c =>
    if c = "" then none  -- Python: `if not cond_str`
    else if c = "Good condition" then some "Good"
    else if c = "Due for reform" then some c
    else if c = "New" then some c
    else none

/-- Separator test for `parse_area_and_city`: the list starts with a
whitespace run, then "in" (case-insensitive), then at least one whitespace
character; returns the text after that whitespace run. -/
def area_sep_at (cs : List Char) : Option (List Char) :=
  match cs with
  | c :: _ =>
    if is_py_space c then
      match cs.dropWhile is_py_space with
      | i :: n :: d :: rest =>
        if (i == 'i' || i == 'I') && (n == 'n' || n == 'N') && is_py_space d then
          some ((d :: rest).dropWhile is_py_space)
        else none
      | _ => none
    else none
  | [] => none

/-- Split at the last viable " in " separator, preferring later positions
(the greedy `^(.*)\s+in\s+(.*)$` keeps the leftmost group maximal). -/
def split_last_in : List Char → Option (List Char × List Char)
  | [] => none
  | c :: t =>
    match split_last_in t with
    | some (p, suf) => some (c :: p, suf)
    | none =>
      match area_sep_at (c :: t) with
      | some suf => some ([], suf)
      | none => none

/-- `src/scraper.py:513` `parse_area_and_city`: split "area in city" at the
last whitespace-delimited "in" (the input, a `get_text(strip=True)` result,
has no newline, where the Python regex reduces to exactly this). -/
def parse_area_and_city (raw_area_text : Option String) :
    Option String × Option String :=
  match raw_area_text with
  | none => (none, none)
  | some s =>
    if s = "" then (none, none)  -- Python: `if not raw_area_text`
    else
      let t := py_strip s
      match split_last_in t.data with
      | some (p, suf) => (some (py_strip (String.mk p)), some (py_strip (String.mk suf)))
      | none => (none, some (py_strip t))

/-- Hexadecimal digit value, for percent-decoding. -/
def hex_val (c : Char) : Option Nat :=
  if c.isDigit then some (c.toNat - 48)
  else if 'a' ≤ c && c ≤ 'f' then some (c.toNat - 87)
  else if 'A' ≤ c && c ≤ 'F' then some (c.toNat - 55)
  else none

/-- Model of `urllib.parse.unquote` on the character list: a `%` followed by
two hex digits becomes the corresponding character (single-byte model,
faithful for ASCII data); anything else is kept as is. -/
def unquote_chars : List Char → List Char
  | [] => []
  | '%' :: h1 :: h2 :: rest =>
    match hex_val h1, hex_val h2 with
    | some v1, some v2 => Char.ofNat (16 * v1 + v2) :: unquote_chars rest
    | _, _ => '%' :: unquote_chars (h1 :: h2 :: rest)
  | c :: rest => c :: unquote_chars rest

/-- Model of Python `float(s)` on finite decimal literals, as an exact
rational: optional sign, digits with optional fraction, optional exponent,
surrounding whitespace stripped. Underscored literals, `inf` and `nan` are
outside the model; binary-double rounding is not modelled (only parse
success and small decimal values matter in this development). -/
def py_float (s : String) : Option ℚ :=
  let cs0 := py_strip_chars s.data
  let neg : Bool := match cs0 with
    | '-' :: _ => true
    | _ => false
  let cs := match cs0 with
    | '+' :: t => t
    | '-' :: t => t
    | t => t
  let ip := cs.takeWhile Char.isDigit
  let cs1 := cs.dropWhile Char.isDigit
  let fp := match cs1 with
    | '.' :: t => t.takeWhile Char.isDigit
    | _ => []
  let cs2 := match cs1 with
    | '.' :: t => t.dropWhile Char.isDigit
    | t => t
  if ip.isEmpty && fp.isEmpty then none
  else
    let mant : Int := Int.ofNat (digits_to_nat (ip ++ fp))
    let meval : Int := if neg then -mant else mant
    match cs2 with
    | [] => some (mkRat meval (10 ^ fp.length))
    | e :: t =>
      if e == 'e' || e == 'E' then
        let eneg : Bool := match t with
          | '-' :: _ => true
          | _ => false
        let t2 := match t with
          | '+' :: u => u
          | '-' :: u => u
          | u => u
        let ed := t2.takeWhile Char.isDigit
        let t3 := t2.dropWhile Char.isDigit
        if ed.isEmpty || !t3.isEmpty then none
        else
          let ev := digits_to_nat ed
          if eneg then some (mkRat meval (10 ^ (fp.length + ev)))
          else some (mkRat (meval * (10 : Int) ^ ev) (10 ^ fp.length))
      else none

/-- Leftmost match of `waze\.com/ul\?ll=([^&]+)` in a script body, returning
the captured group: the marker followed by at least one non-`&` character;
a marker occurrence with an empty capture is skipped, as the regex engine
would move on to a later starting position. -/
def search_ll : List Char → Option (List Char)
  | [] => none
  | c :: t =>
    if ("waze.com/ul?ll=".data).isPrefixOf (c :: t) then
      let cap := ((c :: t).drop 15).takeWhile (fun d => d ≠ '&')
      if cap.isEmpty then search_ll t else some cap
    else search_ll t

/-- Loop of `src/scraper.py:541` `extract_coordinates`: `lat` and `lon` are
the mutable locals. They are assigned one at a time inside the `try`
block, so a pair whose first component parses but whose second does not
leaves `lat` set, and the loop continues with the next script. -/
def extract_coordinates_go :
    List (Option String) → Option ℚ → Option ℚ → Option ℚ × Option ℚ
  | [], la, lo => (la, lo)
  | s :: rest, la, lo =>
    match s with
    | none => extract_coordinates_go rest la lo  -- Python: `if s.string and ...`
    | some str =>
      if contains_sub str "waze.com/ul" then
        match search_ll str.data with
        | none => extract_coordinates_go rest la lo
        | some cap =>
          match split_on_char ',' (unquote_chars cap) with
          | [lat_cs, lon_cs] =>
            match py_float (String.mk lat_cs) with
            | none => extract_coordinates_go rest la lo
            | some laV =>
              match py_float (String.mk lon_cs) with
              | some loV => (some laV, some loV)  -- `break` on full success
              | none => extract_coordinates_go rest (some laV) lo
          | _ => extract_coordinates_go rest la lo  -- unpack raises ValueError
      else extract_coordinates_go rest la lo

/-- `src/scraper.py:541` `extract_coordinates`: scan every script body for a
waze map link and parse "lat,lon" from its `ll` query parameter. A script
whose `.string` is `None` is represented by `none` in the list. -/
def extract_coordinates (scripts : List (Option String)) : Option ℚ × Option ℚ :=
  extract_coordinates_go scripts none none

/-- Scan for the first match of `/(a|pa)/(\d+)`: at each position the
alternatives `a` then `pa` are tried, each requiring a following slash and
at least one digit; the match result is the two groups concatenated. -/
def ext_id_scan : List Char → Option String
  | [] => none
  | '/' :: 'a' :: '/' :: rest =>
    let ds := rest.takeWhile Char.isDigit
    if ds.isEmpty then ext_id_scan ('a' :: '/' :: rest)
    else some (String.mk ('a' :: ds))
  | '/' :: 'p' :: 'a' :: '/' :: rest =>
    let ds := rest.takeWhile Char.isDigit
    if ds.isEmpty then ext_id_scan ('p' :: 'a' :: '/' :: rest)
    else some (String.mk ('p' :: 'a' :: ds))
  | _ :: cs => ext_id_scan cs

/-- `src/scraper.py:220` `get_mubawab_external_id`: combined id such as
"a8037244" or "pa4634098" from the first `/a/<digits>` or `/pa/<digits>`
segment of the URL, `None` when no segment matches. -/
def get_mubawab_external_id (url : String) : Option String :=
  ext_id_scan url.data

/-- A listing card on an index page: the `linkref` attribute of
`div.listingBox[linkref]` (`None` when absent) and the class list of the
box (`box.get("class", [])`). -/
structure Card where
  linkref : Option String
  classes : List String
deriving DecidableEq

/-- A listing descriptor, the dict appended by `get_links`
(`src/scraper.py:403`). -/
structure Desc where
  url : String
  external_id : String
  listing_tier : String
  is_adboost : Bool
deriving DecidableEq

/-- `src/scraper.py:201` `classify_listing_box`: tier and boost flag from
the lower-cased class list of a listing box. -/
def classify_listing_box (box : Card) : String × Bool :=
  let classes_set := box.classes.map py_lower
  let is_adboost := decide ("adboostbox" ∈ classes_set)
  let tier :=
    if "spremium" ∈ classes_set then "super_premium"
    else if "premium" ∈ classes_set then "premium"
    else "standard"
  (tier, is_adboost)

/-- Body of the card loop of `get_links` (`src/scraper.py:381`): `none`
models a `continue` (missing or empty linkref, unresolvable identity,
already-known identity, adboost card), `some` the appended descriptor. -/
def card_descriptor (existing : List String) (box : Card) : Option Desc :=
  match box.linkref with
  | none => none  -- Python: `if not url: continue`
  | some u =>
    if u = "" then none  -- empty string is falsy too
    else
      let url := if starts_with_char u '/' then "https://www.mubawab.ma" ++ u else u
      match get_mubawab_external_id url with
      | none => none  -- `if not external_id: continue`
      | some eid =>
        if eid ∈ existing then none  -- skip if already normalised
        else
          match classify_listing_box box with
          | (tier, adboost) =>
            if adboost then none  -- drop adBoostBox cards
            else some ⟨url, eid, tier, adboost⟩

/-- The inner card loop of `get_links` over the boxes of one index page. -/
def process_boxes (existing : List String) (boxes : List Card) : List Desc :=
  boxes.filterMap (card_descriptor existing)

/-- `src/scraper.py:339` `get_links`. The page loop is represented by the
list of fetched index pages in order (`none` entry = failed fetch, which
stops pagination; `some []` = page without listing boxes, which also
stops). The function takes only the set of already-known identities
(`existing_ids`); the source has no watermark parameter and no early stop
on a matching identity, and nothing records identities seen within the
current run. The politeness sleep between pages has no observable effect
here and is omitted. -/
def get_links : List (Option (List Card)) → List String → List Desc
  | [], _ => []
  | none :: _, _ => []
  | some [] :: _, _ => []
  | some (b :: bs) :: rest, existing =>
    process_boxes existing (b :: bs) ++ get_links rest existing

/-- A paragraph element: `p.text` and `p.get_text(separator=" ")`. -/
structure Paragraph where
  text : String
  text_sep : String
deriving DecidableEq

/-- One `div.adMainFeatureContent` block: the texts of the label and value
sub-elements, `none` when the sub-element is missing. -/
structure FeatureContent where
  label_tag : Option String
  value_tag : Option String
deriving DecidableEq

/-- One `div.adDetailFeature` block: its `get_text(strip=True)` and the text
of its `span` child when present. -/
structure DetailFeature where
  text : String
  span : Option String
deriving DecidableEq

/-- An anchor element with an `href`: stripped text and the href value. -/
structure ATag where
  text : String
  href : String
deriving DecidableEq

/-- The `span.link.businessName` element of the business-info block:
optional inner `a[href]`, `get_text(" ", strip=True)` and
`get_text(strip=True)`. -/
structure BusinessSpan where
  a_tag : Option ATag
  text_sep_strip : String
  text_strip : String
deriving DecidableEq

/-- A parsed listing page, represented by the results of the BeautifulSoup
queries that `scraper.py` performs on it. Tag texts are stored as the
`get_text` results of the corresponding calls. `business_span` is the
nested lookup `div.businessInfo` then `span.link.businessName`: outer
`none` = no business-info div, `some none` = div without the span. -/
structure Soup where
  price_tag : Option String
  area_tag : Option String
  title_tag : Option String
  word_break_div : Option String
  paragraphs : List Paragraph
  ad_features : Option (List FeatureContent)
  detail_features : List DetailFeature
  feature_tags : List String
  scripts : List (Option String)
  masonry_photo : Option (List (Option String))
  business_span : Option (Option BusinessSpan)
deriving DecidableEq

/-- The `PropertyDetails` dataclass (`src/scraper.py:86`). Cleaned numeric
fields are digit strings, hence `Option Nat`; coordinates are the parsed
map-link rationals. -/
structure PropertyDetails where
  title : Option String
  description : Option String
  property_type : Option String
  city : Option String
  area : Option String
  size : Option Nat
  rooms : Option Nat
  bedrooms : Option Nat
  bathrooms : Option Nat
  price : Option Nat
  features : Option String
  condition : Option String
  age : Option String
  orientation : Option String
  flooring : Option String
  floor_number : Option Nat
  number_of_floors : Option Nat
  lat : Option ℚ
  lon : Option ℚ
  url : String
  agent_type : Option String
  agent_name : Option String
  agent_url : Option String
deriving DecidableEq

/-- Lookup in the `label_value` dict built by the features loop: the last
assignment to a key wins, as in a Python dict. -/
def dict_get (m : List (String × String)) (k : String) : Option String :=
  (m.reverse.find? (fun p => p.1 == k)).map (fun p => p.2)

/-- The features loop of `parse_property_page` (`src/scraper.py:650`):
pairs of cleaned label/value texts, skipping blocks missing either tag. -/
def build_label_value (contents : List FeatureContent) : List (String × String) :=
  contents.foldl
    (fun m fc =>
      match fc.label_tag, fc.value_tag with
      | some l, some v => m ++ [(clean_att l, clean_att v)]
      | _, _ => m)
    []

/-- The detail-features loop of `parse_property_page`
(`src/scraper.py:674`): each block with a span may overwrite size, rooms,
bedrooms and bathrooms by substring-matching its text; the four `if`
statements are independent, not chained. -/
def scan_detail_features (blocks : List DetailFeature) :
    Option Nat × Option Nat × Option Nat × Option Nat :=
  blocks.foldl
    (fun acc d =>
      match d.span with
      | none => acc  -- `if not span: continue`
      | some v =>
        match acc with
        | (sz, rm, bd, ba) =>
          let sz := if contains_sub d.text "m²" then clean_integer (some v) else sz
          let rm := if contains_sub d.text "Pieces" || contains_sub d.text "Piece"
                    then clean_integer (some v) else rm
          let bd := if contains_sub d.text "Rooms" || contains_sub d.text "Room"
                    then clean_integer (some v) else bd
          let ba := if contains_sub d.text "Bathrooms" || contains_sub d.text "Bathroom"
                    then clean_integer (some v) else ba
          (sz, rm, bd, ba))
    (none, none, none, none)

/-- Join strings with ", ", model of Python `", ".join(...)`. -/
def join_comma_space : List String → String
  | [] => ""
  | [x] => x
  | x :: y :: r => x ++ ", " ++ join_comma_space (y :: r)

/-- Description fallback of `parse_property_page` (`src/scraper.py:641`):
first paragraph whose stripped `p.text` exceeds 50 characters. -/
def first_long_paragraph (ps : List Paragraph) : Option String :=
  (ps.find? (fun p => (py_strip p.text).length > 50)).map
    (fun p => py_strip p.text_sep)

/-- `src/scraper.py:744` `extract_agent_info`: agent type, name and URL from
the business-info block. -/
def extract_agent_info (soup : Soup) :
    Option String × Option String × Option String :=
  match soup.business_span with
  | none => (none, none, none)
  | some none => (none, none, none)
  | some (some sp) =>
    match sp.a_tag with
    | some a =>
      let type_text := py_lower sp.text_sep_strip
      let agent_type :=
        if contains_sub type_text "agency" then "agency"
        else if contains_sub type_text "particular" then "individual"
        else "agency"  -- sensible default in the source
      (some agent_type, some a.text, some a.href)
    | none => (some "individual", some sp.text_strip, none)

/-- The order-preserving deduplication loop of `get_image_links`
(`src/scraper.py:432`), with the `seen` accumulator. -/
def dedup_keep_order : List String → List String → List String
  | [], _ => []
  | u :: rest, seen =>
    if u ∈ seen then dedup_keep_order rest seen
    else u :: dedup_keep_order rest (u :: seen)

/-- `src/scraper.py:417` `get_image_links`: the `src` attributes of the
images inside `div#masonryPhoto`, deduplicated preserving order. -/
def get_image_links (soup : Soup) : List String :=
  match soup.masonry_photo with
  | none => []
  | some imgs =>
    let urls := imgs.filterMap (fun src =>
      match src with
      | none => none
      | some s => if s = "" then none else some s)  -- `if src:`
    dedup_keep_order urls []

/-- `src/scraper.py:615` `parse_property_page`: the three anchor tags
(`h3.orangeTit`, `h3.greyTit`, `h1.searchTitle`) gate the whole parse; if
any is missing the function logs a warning and returns `None` before any
field extraction. The function reads the document only — it performs no
store writes. -/
def parse_property_page (link : String) (soup : Soup) : Option PropertyDetails :=
  match soup.price_tag, soup.area_tag, soup.title_tag with
  | some raw_price, some raw_area_text, some raw_title =>
    let price := clean_integer (some raw_price)
    let title := clean_text (some raw_title)
    let ac := parse_area_and_city (some raw_area_text)
    let text_content : Option String :=
      match soup.word_break_div with
      | some t => some (py_strip t)
      | none => first_long_paragraph soup.paragraphs
    let label_value :=
      match soup.ad_features with
      | some contents => build_label_value contents
      | none => []
    let prop_type := dict_get label_value "Type of property"
    let condition := clean_condition (dict_get label_value "Condition")
    let age_raw := dict_get label_value "Age"
    let orientation := dict_get label_value "Orientation"
    let flooring := dict_get label_value "Flooring"
    let floor_number := clean_integer (dict_get label_value "Floor number")
    let number_of_floors := clean_integer (dict_get label_value "Number of floors")
    let quad := scan_detail_features soup.detail_features
    let size := quad.1
    let rooms0 := quad.2.1
    let bedrooms := quad.2.2.1
    let bathrooms := quad.2.2.2
    let rooms :=
      match rooms0, text_content with
      | none, some t => if t = "" then none else clean_rooms (some t)
      | r, _ => r  -- `if rooms is None and text_content`
    let features_list := soup.feature_tags.map (fun tg => clean_text (some tg))
    let feature_str : Option String :=
      if features_list.isEmpty then none
      else some (join_comma_space
        ((features_list.filterMap id).filter (fun f => f ≠ "")))
    let co := extract_coordinates soup.scripts
    let ag := extract_agent_info soup
    some
      { title := title
        description := text_content
        property_type := prop_type
        city := ac.2
        area := ac.1
        size := size
        rooms := rooms
        bedrooms := bedrooms
        bathrooms := bathrooms
        price := price
        features := feature_str
        condition := condition
        age := (match age_raw with
                | some a => if a = "" then none else clean_age (some a)
                | none => none)  -- `clean_age(str(age_raw)) if age_raw else None`
        orientation := orientation
        flooring := flooring
        floor_number := floor_number
        number_of_floors := number_of_floors
        lat := co.1
        lon := co.2
        url := link
        agent_type := ag.1
        agent_name := ag.2.1
        agent_url := ag.2.2 }
  | _, _, _ => none  -- `if not (price_tag and area_tag and title_tag): return None`

/-- Payload of a `raw_listings` upsert (`src/scraper.py:250`), minus the
wall-clock `scraped_at_client` field. -/
structure RawPayload where
  url : String
  html : String
  image_urls : List String
  listing_tier : String
  is_adboost : Bool
  agent_type : Option String
  agent_name : Option String
  agent_url : Option String
deriving DecidableEq

/-- A write against one of the three stores. -/
inductive StoreWrite where
  | raw_listing (external_id source : String) (payload : RawPayload)
  | listing_image (external_id : String) (image_index : Nat)
      (original_url storage_path : String)
  | normalised_listing (external_id source listing_type : String)
      (details : PropertyDetails) (main_image_path : Option String)
      (listing_tier : String) (is_adboost : Bool)
deriving DecidableEq

/-- A raised Python exception. -/
inductive PyError where
  | name_error (missing : String)
  | type_error (call : String)
deriving DecidableEq

/-- `src/scraper.py:234` `save_raw_listing`, as defined: positional
parameters `(source, external_id, link, response_text, image_urls)` and
keyword-only `listing_tier`, `is_adboost`, `details`. Note that the call
site in `process_single_listing` (`src/scraper.py:173`) does not match
this signature: it passes `listing_type`, `agent_type`, `agent_name` and
`agent_url`, which this definition does not accept, and omits the
required `is_adboost` and `details` — if reached, the call raises
`TypeError` before this body runs. -/
def save_raw_listing (source external_id link response_text : String)
    (image_urls : List String) (listing_tier : String) (is_adboost : Bool)
    (details : PropertyDetails) : StoreWrite :=
  StoreWrite.raw_listing external_id source
    { url := link
      html := response_text
      image_urls := image_urls
      listing_tier := listing_tier
      is_adboost := is_adboost
      agent_type := details.agent_type
      agent_name := details.agent_name
      agent_url := details.agent_url }

/-- `src/scraper.py:275` `upsert_normalised_listing`, as defined: the call
site in `process_single_listing` (`src/scraper.py:190`) omits the
required keyword-only `is_adboost` parameter, so if reached it raises
`TypeError` before this body runs. -/
def upsert_normalised_listing (details : PropertyDetails)
    (external_id source listing_type listing_tier : String)
    (is_adboost : Bool) (main_image_path : Option String) : StoreWrite :=
  StoreWrite.normalised_listing external_id source listing_type details
    main_image_path listing_tier is_adboost

/-- The HTTP collaborator for one run: `fetch url` is the parsed document of
a successful GET, or `none` when the request failed after retries
(`src/scraper.py:329` returns `None` on `RequestException`). The raw
response text is only consumed by the unreachable `save_raw_listing`
call, so the fetched page is represented directly by its `Soup`. -/
structure ScrapeEnv where
  fetch : String → Option Soup

instance {ε α : Type} [DecidableEq ε] [DecidableEq α] : DecidableEq (Except ε α) :=
  fun a b =>
    match a, b with
    | Except.ok x, Except.ok y =>
      if h : x = y then isTrue (by rw [h]) else isFalse (by simp [h])
    | Except.error x, Except.error y =>
      if h : x = y then isTrue (by rw [h]) else isFalse (by simp [h])
    | Except.ok _, Except.error _ => isFalse (by simp)
    | Except.error _, Except.ok _ => isFalse (by simp)

/-- Outcome of one `process_single_listing` call: the returned value or the
raised exception, together with the store writes performed. -/
structure ProcOutcome where
  result : Except PyError (Option PropertyDetails)
  writes : List StoreWrite
deriving DecidableEq

/-- `src/scraper.py:144` `process_single_listing`. After a successful fetch
the code builds the soup, collects image links, and then executes line
160, `extract_agency_info(soup)` — a name that is defined nowhere in the
module (the defined function, line 744, is `extract_agent_info`, and the
imported names do not include the other one). Python raises `NameError`
there, so the
remainder of the body (parse, `save_raw_listing`,
`process_listing_images`, `upsert_normalised_listing`, lines 162-199) is
unreachable and no store write ever happens. A failed fetch returns
`None` first. -/
def process_single_listing (env : ScrapeEnv) (meta : Desc) : ProcOutcome :=
  match env.fetch meta.url with
  | none => { result := Except.ok none, writes := [] }
  | some soup =>
    let _image_urls := get_image_links soup
    { result := Except.error (PyError.name_error "extract_agency_info")
      writes := [] }

/-- `src/scraper.py:729` `get_details`: the per-listing loop. Each listing
is processed inside `try`/`except Exception`, so a raised exception is
logged and the loop continues; rows are collected only from non-`None`
results. The returned DataFrame is represented by its row list. -/
def get_details (env : ScrapeEnv) : List Desc → List PropertyDetails
  | [] => []
  | m :: rest =>
    match (process_single_listing env m).result with
    | Except.ok (some d) => d :: get_details env rest
    | Except.ok none => get_details env rest
    | Except.error _ => get_details env rest

/-- One row of the `listing_images` table. `storage_path` is nullable in the
table, although this pipeline only writes non-empty paths. -/
structure ImageRow where
  external_id : String
  image_index : Nat
  original_url : String
  storage_path : Option String
deriving DecidableEq

/-- The `listing_images` select filtered on `(external_id, image_index)`:
first matching row, the `data[0]` of the query. -/
def find_image_row (s : List ImageRow) (eid : String) (idx : Nat) : Option ImageRow :=
  s.find? (fun r => r.external_id == eid && r.image_index == idx)

/-- Upsert on conflict key `(external_id, image_index)`: replace the
existing row or append a new one. -/
def upsert_image_row (s : List ImageRow) (row : ImageRow) : List ImageRow :=
  if (find_image_row s row.external_id row.image_index).isSome then
    s.map (fun r =>
      if r.external_id == row.external_id && r.image_index == row.image_index
      then row else r)
  else s ++ [row]

/-- Result of one `process_listing_images` run: the table state after the
run, the returned `main_image_path`, and the indices for which the
download/upload collaborator was invoked, in order. -/
structure ImagesRun where
  state : List ImageRow
  main_image_path : Option String
  upload_calls : List Nat
deriving DecidableEq

/-- The `enumerate(image_urls)` loop of `process_listing_images`
(`src/scraper.py:571`). `upload` is the `upload_avif_to_r2` collaborator;
an index with an existing row is skipped without calling it, and a falsy
(`none` or empty) upload result leaves the index unindexed. -/
def process_listing_images_go (upload : String → Nat → String → Option String)
    (eid : String) :
    Nat → List String → List ImageRow → Option String → List Nat → ImagesRun
  | _, [], s, main, ups => { state := s, main_image_path := main, upload_calls := ups }
  | idx, url :: rest, s, main, ups =>
    match find_image_row s eid idx with
    | some row =>
      -- row exists: reuse its storage_path for the main image when idx = 0
      process_listing_images_go upload eid (idx + 1) rest s
        (if main.isNone && idx == 0 then row.storage_path else main) ups
    | none =>
      match upload eid idx url with
      | none =>
        process_listing_images_go upload eid (idx + 1) rest s main (ups ++ [idx])
      | some path =>
        if path = "" then  -- `if not storage_path: continue`
          process_listing_images_go upload eid (idx + 1) rest s main (ups ++ [idx])
        else
          process_listing_images_go upload eid (idx + 1) rest
            (upsert_image_row s { external_id := eid, image_index := idx,
                                  original_url := url, storage_path := some path })
            (if main.isNone && idx == 0 then some path else main) (ups ++ [idx])

/-- `src/scraper.py:561` `process_listing_images`.

Modelled from the spec: `upload_avif_to_r2` is called at
`src/scraper.py:594` but defined nowhere in the repository sources; per
spec section 4.5 it downloads the image and re-uploads it to object
storage under a deterministic path, returning the storage path, or a
falsy value when the download or upload fails. It is therefore taken
here as an abstract `upload` parameter returning `Option String`. The
skip-if-present loop itself is translated from the source. -/
def process_listing_images (upload : String → Nat → String → Option String)
    (s : List ImageRow) (external_id : String) (image_urls : List String) :
    ImagesRun :=
  process_listing_images_go upload external_id 0 image_urls s none []

/-- Every index below `n` already has a `listing_images` row for `eid`. -/
def fully_indexed (s : List ImageRow) (eid : String) (n : Nat) : Bool :=
  (List.range n).all (fun i => (find_image_row s eid i).isSome)

/-! ## Claim C2 — the condition mapping -/

/-- Claim C2: the claim states the closed mapping "Good condition" to
"Good", "Due for reform" to "Old", "New" to "New", everything else to
absent, with unknown values never passed through raw. The code disagrees
at exactly one point: on "Due for reform" the line `cond_str == 'Old'` is
a discarded comparison, not an assignment, so the branch returns the raw
input "Due for reform" instead of "Old". This theorem evaluates the
embedded code at the failing input and at the other points of the
mapping, which behave as claimed. -/
theorem clean_condition_eval :
    clean_condition (some "Due for reform") = some "Due for reform" ∧
    clean_condition (some "Good condition") = some "Good" ∧
    clean_condition (some "New") = some "New" ∧
    clean_condition (some "Renovated") = none ∧
    clean_condition (some "") = none ∧
    clean_condition none = none := by decide

/-! ## Claim C7 — the anchor gate of the page parser -/

/-- Claim C7: for every document in which any of the three anchor elements
(`h3.orangeTit`, `h3.greyTit`, `h1.searchTitle`) is missing,
`parse_property_page` returns `None`. The function is pure — it only
queries the soup — so it writes nothing on any input. -/
theorem parse_property_page_anchor_gate (link : String) (soup : Soup)
    (h : soup.price_tag = none ∨ soup.area_tag = none ∨ soup.title_tag = none) :
    parse_property_page link soup = none := by
  cases hp : soup.price_tag with
  | none => simp [parse_property_page, hp]
  | some vp =>
    cases ha : soup.area_tag with
    | none => simp [parse_property_page, hp, ha]
    | some va =>
      cases ht : soup.title_tag with
      | none => simp [parse_property_page, hp, ha, ht]
      | some vt => exfalso; rcases h with h | h | h <;> simp_all

/-- A concrete listing document with a price block and a title block but no
area/city block. -/
def c7_soup : Soup :=
  { price_tag := some "9,000 DH", area_tag := none, title_tag := some "Flat",
    word_break_div := none, paragraphs := [], ad_features := none,
    detail_features := [], feature_tags := [], scripts := [],
    masonry_photo := none, business_span := none }

/-- Witness for claim C7 at a concrete page missing the area anchor. -/
theorem parse_property_page_anchor_gate_witness :
    (c7_soup.price_tag = none ∨ c7_soup.area_tag = none ∨ c7_soup.title_tag = none) ∧
    parse_property_page "https://www.mubawab.ma/a/77" c7_soup = none :=
  ⟨Or.inr (Or.inl rfl),
   parse_property_page_anchor_gate "https://www.mubawab.ma/a/77" c7_soup
     (Or.inr (Or.inl rfl))⟩

/-! ## Claim C1 — process_single_listing on a parseable page -/

/-- A listing page whose parse succeeds: all three anchors present. -/
def c1_soup : Soup :=
  { price_tag := some "12,500 DH", area_tag := some "Maarif in Casablanca",
    title_tag := some "Nice flat",
    word_break_div := some "A large and detailed description",
    paragraphs := [], ad_features := none,
    detail_features := [{ text := "90 m²", span := some "90" }],
    feature_tags := [], scripts := [],
    masonry_photo := some [some "img1"], business_span := none }

/-- An environment in which every fetch succeeds with that page. -/
def c1_env : ScrapeEnv := { fetch := fun _ => some c1_soup }

/-- The descriptor of that listing. -/
def c1_meta : Desc :=
  { url := "https://www.mubawab.ma/a/8037244/nice-flat", external_id := "a8037244",
    listing_tier := "standard", is_adboost := false }

/-- Claim C1: the claim states that when the fetch succeeds and the HTML
parses into a record, `process_single_listing` writes all three stores
and returns the parsed record. The code cannot do this: line 160 calls
`extract_agency_info`, a name defined nowhere in the module (the defined
function is `extract_agent_info`), so every successfully fetched listing
raises `NameError` before any store write; and even with that name
repaired, the `save_raw_listing` call at lines 173-184 passes
`listing_type`, `agent_type`, `agent_name`, `agent_url` and omits the
required `is_adboost` and `details`, and the `upsert_normalised_listing`
call at lines 190-197 omits the required `is_adboost`, both raising
`TypeError`. This theorem evaluates the embedding at a concrete listing
whose fetch succeeds and whose page parses into a record: the call
raises, writes nothing, and returns no record. -/
theorem process_single_listing_crashes_on_parseable_page :
    (parse_property_page c1_meta.url c1_soup).isSome = true ∧
    process_single_listing c1_env c1_meta =
      { result := Except.error (PyError.name_error "extract_agency_info"),
        writes := [] } := by decide

/-! ## Claim C3 — order of raw persist and parse -/

/-- A page that does not parse: all three anchors missing. -/
def c3_soup : Soup :=
  { price_tag := none, area_tag := none, title_tag := none,
    word_break_div := none, paragraphs := [], ad_features := none,
    detail_features := [], feature_tags := [], scripts := [],
    masonry_photo := none, business_span := none }

/-- Environment for the C3 counterexample: the fetch succeeds with an
unparseable page. -/
def c3_env : ScrapeEnv := { fetch := fun _ => some c3_soup }

/-- Descriptor for the C3 counterexample. -/
def c3_meta : Desc :=
  { url := "https://www.mubawab.ma/a/555/gone", external_id := "a555",
    listing_tier := "standard", is_adboost := false }

/-- Counterexample to claim C3: a listing whose fetch succeeds and whose
parse returns absent leaves no RawCapture at all — `writes` is empty, so
no raw HTML is stored for replay. In the source the `parse_property_page`
call (line 163) and its early return (line 165) precede the
`save_raw_listing` call (line 173), and as written the function raises at
line 160 before either. -/
theorem parse_fail_leaves_no_raw_capture :
    c3_env.fetch c3_meta.url = some c3_soup ∧
    parse_property_page c3_meta.url c3_soup = none ∧
    (process_single_listing c3_env c3_meta).writes = [] := by decide

/-- Claim C3 as amended: the RawCapture is not persisted before the Page
Parser runs — in the source order the parse call and its absent-return
precede the raw persist, and the function as written raises before
either — so a listing whose parse returns absent leaves no raw HTML
stored; in fact no store write ever happens in `process_single_listing`. -/
theorem process_single_listing_writes_nothing (env : ScrapeEnv) (meta : Desc) :
    (process_single_listing env meta).writes = [] := by
  unfold process_single_listing
  cases env.fetch meta.url <;> rfl

/-! ## Claim C4 — resume modes of link discovery -/

/-- Index page 1 for the C4 counterexample: exactly the previously seen
listing `a1` (the watermark). -/
def c4_page1 : List Card := [{ linkref := some "/a/1", classes := [] }]

/-- Index page 2 for the C4 counterexample: a listing `a2`. -/
def c4_page2 : List Card := [{ linkref := some "/a/2", classes := [] }]

/-- Counterexample to claim C4: `get_links` does not support a watermark
mode. Its only resume input is the known-identities set, and a card whose
identity matches a known identity does not stop pagination: with known
set `{a1}` and `a1` as the sole card of page 1, page 2 is still fetched
and its listing is returned. Under the claimed watermark semantics the
run would stop at page 1 and return nothing. -/
theorem get_links_no_watermark_stop :
    get_links [some c4_page1, some c4_page2] ["a1"] =
      [{ url := "https://www.mubawab.ma/a/2", external_id := "a2",
         listing_tier := "standard", is_adboost := false }] := by decide

/-- Claim C4 as amended: link discovery supports only the known-IDs-set
mode — each card is filtered against the supplied set individually, and
a match never halts pagination: every page with at least one listing box
is processed and the loop proceeds to the remaining pages regardless of
which identities were seen. -/
theorem get_links_paginates_past_matches (existing : List String)
    (b : Card) (bs : List Card) (rest : List (Option (List Card))) :
    get_links (some (b :: bs) :: rest) existing =
      process_boxes existing (b :: bs) ++ get_links rest existing := rfl

/-! ## Claims C5 and C10 — invariants of the discovery output -/

/-- Every descriptor kept by the card loop has a resolvable identity equal
to its recorded `external_id`, and that identity is not in the supplied
known-identities set. -/
theorem card_descriptor_spec {existing : List String} {box : Card} {d : Desc}
    (h : card_descriptor existing box = some d) :
    get_mubawab_external_id d.url = some d.external_id ∧
      d.external_id ∉ existing := by
  simp only [card_descriptor] at h
  split at h
  · exact absurd h (by simp)
  · split at h
    · exact absurd h (by simp)
    · split at h
      · exact absurd h (by simp)
      · rename_i u hu url eid heid
        split at h
        · exact absurd h (by simp)
        · rename_i hmem
          split at h
          · exact absurd h (by simp)
          · injection h with h
            subst h
            exact ⟨heid, hmem⟩

/-- Claim C10: every descriptor returned by `get_links` carries an identity
that `get_mubawab_external_id` resolves from its URL — cards without a
`linkref` and cards whose URL yields no `/a/<digits>` or `/pa/<digits>`
segment are dropped by the `continue` statements at lines 383-391, never
kept with an absent identity. -/
theorem get_links_descriptor_has_identity (pages : List (Option (List Card)))
    (existing : List String) (d : Desc) (h : d ∈ get_links pages existing) :
    get_mubawab_external_id d.url = some d.external_id := by
  induction pages with
  | nil => simp [get_links] at h
  | cons pg rest ih =>
    cases pg with
    | none => simp [get_links] at h
    | some boxes =>
      cases boxes with
      | nil => simp [get_links] at h
      | cons b bs =>
        simp only [get_links, process_boxes, List.mem_append,
          List.mem_filterMap] at h
        rcases h with ⟨box, _, hcd⟩ | hr
        · exact (card_descriptor_spec hcd).1
        · exact ih hr

/-- An index page for the C10 witness: one resolvable card, one card with
no `linkref`, one card whose URL has no identity segment. -/
def c10_page : List Card :=
  [{ linkref := some "/a/9", classes := [] },
   { linkref := none, classes := [] },
   { linkref := some "/en/cc/other", classes := [] }]

/-- The descriptor that survives the C10 page. -/
def c10_desc : Desc :=
  { url := "https://www.mubawab.ma/a/9", external_id := "a9",
    listing_tier := "standard", is_adboost := false }

/-- Witness for claim C10 on a concrete page: the only returned descriptor
resolves to its identity; the identity-less cards were dropped. -/
theorem get_links_descriptor_has_identity_witness :
    c10_desc ∈ get_links [some c10_page] [] ∧
    get_mubawab_external_id c10_desc.url = some c10_desc.external_id :=
  ⟨by decide,
   get_links_descriptor_has_identity [some c10_page] [] c10_desc (by decide)⟩

/-- The repeated card of the C5 counterexample. -/
def c5_card : Card := { linkref := some "/a/1", classes := [] }

/-- The descriptor that card yields. -/
def c5_desc : Desc :=
  { url := "https://www.mubawab.ma/a/1", external_id := "a1",
    listing_tier := "standard", is_adboost := false }

/-- Counterexample to claim C5: when the same card appears on two index
pages of one run (and its identity is not in the supplied known set), the
returned sequence contains two entries with the same external identity —
the loop never records identities seen within the current run, it only
filters against the pre-supplied set. -/
theorem get_links_duplicate_descriptors :
    get_links [some [c5_card], some [c5_card]] [] = [c5_desc, c5_desc] ∧
    c5_desc.external_id = "a1" := by decide

/-- Claim C5 as amended: within one run, `get_links` guarantees only that no
returned descriptor carries an identity from the supplied known-IDs set;
it does not deduplicate within the run, so a card repeated across pages
is returned once per occurrence. -/
theorem get_links_filters_known_ids (pages : List (Option (List Card)))
    (existing : List String) (d : Desc) (h : d ∈ get_links pages existing) :
    d.external_id ∉ existing := by
  induction pages with
  | nil => simp [get_links] at h
  | cons pg rest ih =>
    cases pg with
    | none => simp [get_links] at h
    | some boxes =>
      cases boxes with
      | nil => simp [get_links] at h
      | cons b bs =>
        simp only [get_links, process_boxes, List.mem_append,
          List.mem_filterMap] at h
        rcases h with ⟨box, _, hcd⟩ | hr
        · exact (card_descriptor_spec hcd).2
        · exact ih hr

/-- Witness for the amended claim C5: on a concrete run with known set
`{zz}`, the returned descriptor is not in that set. -/
theorem get_links_filters_known_ids_witness :
    c5_desc ∈ get_links [some [c5_card]] ["zz"] ∧
    c5_desc.external_id ∉ ["zz"] :=
  ⟨by decide,
   get_links_filters_known_ids [some [c5_card]] ["zz"] c5_desc (by decide)⟩

/-! ## Claim C6 — coordinate extraction failure behaviour -/

/-- Invariant of the coordinate loop: if the longitude accumulator can only
be set together with the latitude, the final longitude can only be set
together with the final latitude. -/
theorem extract_go_lon_lat : ∀ (scripts : List (Option String)) (la lo : Option ℚ),
    (lo.isSome = true → la.isSome = true) →
    (extract_coordinates_go scripts la lo).2.isSome = true →
    (extract_coordinates_go scripts la lo).1.isSome = true := by
  intro scripts
  induction scripts with
  | nil =>
    intro la lo inv h
    simp only [extract_coordinates_go] at h ⊢
    exact inv h
  | cons s rest ih =>
    intro la lo inv
    cases s with
    | none =>
      simp only [extract_coordinates_go]
      exact ih la lo inv
    | some str =>
      simp only [extract_coordinates_go]
      split
      · split <;> first
          | exact ih la lo inv
          | (split <;> first
              | exact ih la lo inv
              | (split <;> first
                  | exact ih la lo inv
                  | (split <;> first
                      | (intro _; rfl)
                      | exact ih (some _) lo (fun _ => Option.isSome_some))))
      · exact ih la lo inv

/-- Counterexample to claim C6: a script whose matched "lat,lon" text has a
parseable latitude and a malformed longitude. The claim says a malformed
numeric parse leaves both coordinates absent; the code assigns `lat`
before attempting `lon`, so the `ValueError` on the longitude leaves the
parsed latitude behind and the function returns latitude 33.5 with
longitude absent. (The loop also continues with later scripts after a
malformed pair, so the first match does not always win.) -/
theorem extract_coordinates_partial_pair :
    extract_coordinates [some "waze.com/ul?ll=33.5,abc"] =
      (some (mkRat 67 2), none) := by decide

/-- Claim C6 as amended: the scan covers all script blocks and stops at the
first fully parsed "lat,lon" pair; a malformed parse does not abort the
enclosing page parse, but it can leave a parsed latitude with an absent
longitude (never a longitude without a latitude), and the scan then
continues with later scripts, so a later match may win. -/
theorem extract_coordinates_lon_requires_lat (scripts : List (Option String))
    (h : (extract_coordinates scripts).2.isSome = true) :
    (extract_coordinates scripts).1.isSome = true :=
  extract_go_lon_lat scripts none none (fun hh => by simp at hh) h

/-- Witness for the amended claim C6 on a concrete script with a fully
parseable pair. -/
theorem extract_coordinates_lon_requires_lat_witness :
    (extract_coordinates [some "waze.com/ul?ll=1.5,2.5"]).2.isSome = true ∧
    (extract_coordinates [some "waze.com/ul?ll=1.5,2.5"]).1.isSome = true :=
  ⟨by decide,
   extract_coordinates_lon_requires_lat [some "waze.com/ul?ll=1.5,2.5"] (by decide)⟩

/-! ## Claim C9 — per-listing fault isolation in get_details -/

/-- Claim C9: an exception raised while processing one listing is caught by
the `try`/`except Exception` of `get_details` and only that listing is
skipped: the rows collected from a batch with the raising listing removed
are identical, so no listing failure affects the others or terminates
the run (`get_details` is a total function into a row list). -/
theorem get_details_fault_isolation (env : ScrapeEnv) (pre : List Desc)
    (m : Desc) (post : List Desc)
    (h : ∃ e, (process_single_listing env m).result = Except.error e) :
    get_details env (pre ++ m :: post) = get_details env (pre ++ post) := by
  induction pre with
  | nil =>
    obtain ⟨e, he⟩ := h
    simp only [List.nil_append, get_details, he]
  | cons p pre2 ih =>
    simp only [List.cons_append, get_details]
    cases hr : (process_single_listing env p).result with
    | ok o =>
      cases o with
      | none => exact ih
      | some d => exact congrArg (d :: ·) ih
    | error e2 => exact ih

/-- Environment and batch for the C9 witness. Under the embedded code every
successfully fetched listing raises (`extract_agency_info` is undefined),
which gives a concrete raising listing; removing it from the batch leaves
the other rows unchanged. -/
def c9_env : ScrapeEnv := { fetch := fun _ => some c3_soup }

/-- First neighbour listing of the C9 witness batch. -/
def c9_a : Desc :=
  { url := "https://www.mubawab.ma/a/11", external_id := "a11",
    listing_tier := "standard", is_adboost := false }

/-- The raising listing of the C9 witness batch. -/
def c9_bad : Desc :=
  { url := "https://www.mubawab.ma/a/12", external_id := "a12",
    listing_tier := "premium", is_adboost := false }

/-- Second neighbour listing of the C9 witness batch. -/
def c9_b : Desc :=
  { url := "https://www.mubawab.ma/a/13", external_id := "a13",
    listing_tier := "standard", is_adboost := false }

/-- Witness for claim C9 on a concrete three-listing batch whose middle
listing raises. -/
theorem get_details_fault_isolation_witness :
    (∃ e, (process_single_listing c9_env c9_bad).result = Except.error e) ∧
    get_details c9_env ([c9_a] ++ c9_bad :: [c9_b]) =
      get_details c9_env ([c9_a] ++ [c9_b]) :=
  ⟨⟨PyError.name_error "extract_agency_info", by decide⟩,
   get_details_fault_isolation c9_env [c9_a] c9_bad [c9_b]
     ⟨PyError.name_error "extract_agency_info", by decide⟩⟩

/-! ## Claim C8 — idempotence of the image pipeline -/

/-- Unfolding of the image loop when the current index already has a row. -/
theorem go_cons_found {upload : String → Nat → String → Option String}
    {eid : String} {idx : Nat} {u : String} {rest : List String}
    {s : List ImageRow} {main : Option String} {ups : List Nat} {row : ImageRow}
    (h : find_image_row s eid idx = some row) :
    process_listing_images_go upload eid idx (u :: rest) s main ups =
      process_listing_images_go upload eid (idx + 1) rest s
        (if main.isNone && idx == 0 then row.storage_path else main) ups := by
  simp only [process_listing_images_go, h]

/-- Unfolding of the image loop when the index is missing and the upload
collaborator fails. -/
theorem go_cons_upload_fail {upload : String → Nat → String → Option String}
    {eid : String} {idx : Nat} {u : String} {rest : List String}
    {s : List ImageRow} {main : Option String} {ups : List Nat}
    (h : find_image_row s eid idx = none) (hu : upload eid idx u = none) :
    process_listing_images_go upload eid idx (u :: rest) s main ups =
      process_listing_images_go upload eid (idx + 1) rest s main (ups ++ [idx]) := by
  simp only [process_listing_images_go, h, hu]

/-- Unfolding of the image loop when the upload returns the falsy empty
path. -/
theorem go_cons_upload_empty {upload : String → Nat → String → Option String}
    {eid : String} {idx : Nat} {u : String} {rest : List String}
    {s : List ImageRow} {main : Option String} {ups : List Nat}
    (h : find_image_row s eid idx = none) (hu : upload eid idx u = some "") :
    process_listing_images_go upload eid idx (u :: rest) s main ups =
      process_listing_images_go upload eid (idx + 1) rest s main (ups ++ [idx]) := by
  simp only [process_listing_images_go, h, hu, if_pos]

/-- Unfolding of the image loop when the upload succeeds with a non-empty
path: the row is appended (the key was absent, so the upsert inserts). -/
theorem go_cons_upload_ok {upload : String → Nat → String → Option String}
    {eid : String} {idx : Nat} {u : String} {rest : List String}
    {s : List ImageRow} {main : Option String} {ups : List Nat} {path : String}
    (h : find_image_row s eid idx = none) (hu : upload eid idx u = some path)
    (hp : path ≠ "") :
    process_listing_images_go upload eid idx (u :: rest) s main ups =
      process_listing_images_go upload eid (idx + 1) rest
        (s ++ [{ external_id := eid, image_index := idx,
                 original_url := u, storage_path := some path }])
        (if main.isNone && idx == 0 then some path else main) (ups ++ [idx]) := by
  simp only [process_listing_images_go, h, hu, if_neg hp, upsert_image_row,
    Option.isSome_none, Bool.false_eq_true, if_false]

/-- Searching an extended table: the appended row is found only when the
original table has no match and the row carries the searched key. -/
theorem find_image_row_append (s : List ImageRow) (r : ImageRow)
    (eid : String) (j : Nat) :
    find_image_row (s ++ [r]) eid j =
      match find_image_row s eid j with
      | some x => some x
      | none =>
        if r.external_id == eid && r.image_index == j then some r else none := by
  induction s with
  | nil =>
    cases hb : (r.external_id == eid && r.image_index == j) <;>
      simp [find_image_row, List.find?, hb]
  | cons a s ih =>
    simp only [find_image_row, List.cons_append, List.find?] at *
    cases ha : (a.external_id == eid && a.image_index == j) <;> simp [ha, ih]

/-- A key absent from an extended table is absent from the original. -/
theorem find_image_row_none_of_append {s : List ImageRow} {r : ImageRow}
    {eid : String} {j : Nat}
    (h : find_image_row (s ++ [r]) eid j = none) :
    find_image_row s eid j = none := by
  rw [find_image_row_append] at h
  cases hf : find_image_row s eid j with
  | none => rfl
  | some x => rw [hf] at h; exact absurd h (by simp)

/-- Appending a row with a different index does not change a lookup. -/
theorem find_image_row_append_ne {s : List ImageRow} {r : ImageRow}
    {eid : String} {j : Nat} (hne : r.image_index ≠ j) :
    find_image_row (s ++ [r]) eid j = find_image_row s eid j := by
  rw [find_image_row_append]
  cases hf : find_image_row s eid j with
  | some x => rfl
  | none =>
    have : (r.image_index == j) = false := beq_eq_false_iff_ne.mpr hne
    simp [this]

/-- `fully_indexed` unfolded to its universal statement. -/
theorem fully_indexed_iff {s : List ImageRow} {eid : String} {n : Nat} :
    fully_indexed s eid n = true ↔
      ∀ i, i < n → (find_image_row s eid i).isSome = true := by
  simp [fully_indexed, List.all_eq_true, List.mem_range]

/-- The storage path recorded for image index 0 when there is at least one
image URL: the main-image value a pure skip-run returns. -/
def main_of (eid : String) (s : List ImageRow) (urls : List String) :
    Option String :=
  match urls with
  | [] => none
  | _ :: _ => (find_image_row s eid 0).bind ImageRow.storage_path

/-- The loop only invokes the upload collaborator for indices that had no
row in the starting table. -/
theorem go_upload_calls_missing (upload : String → Nat → String → Option String)
    (eid : String) :
    ∀ (urls : List String) (idx : Nat) (s : List ImageRow) (main : Option String)
      (ups : List Nat) (i : Nat),
      i ∈ (process_listing_images_go upload eid idx urls s main ups).upload_calls →
      i ∈ ups ∨ find_image_row s eid i = none := by
  intro urls
  induction urls with
  | nil =>
    intro idx s main ups i h
    simp only [process_listing_images_go] at h
    exact Or.inl h
  | cons u rest ih =>
    intro idx s main ups i h
    cases hf : find_image_row s eid idx with
    | some row =>
      rw [go_cons_found hf] at h
      exact ih _ _ _ _ _ h
    | none =>
      cases hu : upload eid idx u with
      | none =>
        rw [go_cons_upload_fail hf hu] at h
        rcases ih _ _ _ _ _ h with hin | hnone
        · rcases List.mem_append.mp hin with h1 | h2
          · exact Or.inl h1
          · have h3 : i = idx := by simpa using h2
            subst h3
            exact Or.inr hf
        · exact Or.inr hnone
      | some path =>
        by_cases hp : path = ""
        · subst hp
          rw [go_cons_upload_empty hf hu] at h
          rcases ih _ _ _ _ _ h with hin | hnone
          · rcases List.mem_append.mp hin with h1 | h2
            · exact Or.inl h1
            · have h3 : i = idx := by simpa using h2
              subst h3
              exact Or.inr hf
          · exact Or.inr hnone
        · rw [go_cons_upload_ok hf hu hp] at h
          rcases ih _ _ _ _ _ h with hin | hnone
          · rcases List.mem_append.mp hin with h1 | h2
            · exact Or.inl h1
            · have h3 : i = idx := by simpa using h2
              subst h3
              exact Or.inr hf
          · exact Or.inr (find_image_row_none_of_append hnone)

/-- A run whose every index already has a row (starting from a positive
index, where the main image cannot be captured) changes nothing. -/
theorem go_skip_all (upload : String → Nat → String → Option String)
    (eid : String) :
    ∀ (urls : List String) (idx : Nat) (s : List ImageRow) (main : Option String)
      (ups : List Nat),
      1 ≤ idx →
      (∀ j, j < urls.length → (find_image_row s eid (idx + j)).isSome = true) →
      process_listing_images_go upload eid idx urls s main ups =
        { state := s, main_image_path := main, upload_calls := ups } := by
  intro urls
  induction urls with
  | nil =>
    intro idx s main ups _ _
    simp [process_listing_images_go]
  | cons u rest ih =>
    intro idx s main ups hidx hall
    have h0 : (find_image_row s eid idx).isSome = true := by
      have h1 := hall 0 (by simp)
      simpa using h1
    obtain ⟨row, hrow⟩ := Option.isSome_iff_exists.mp h0
    rw [go_cons_found hrow]
    have hid : (idx == 0) = false := beq_eq_false_iff_ne.mpr (by omega)
    rw [show (if main.isNone && idx == 0 then row.storage_path else main) = main
        by simp [hid]]
    exact ih (idx + 1) s main ups (by omega) (fun j hj => by
      have h2 := hall (j + 1) (by simpa using Nat.succ_lt_succ hj)
      rw [show idx + 1 + j = idx + (j + 1) from by omega]
      exact h2)

/-- Starting from a positive index, the loop never changes the main-image
accumulator. -/
theorem go_main_stable (upload : String → Nat → String → Option String)
    (eid : String) :
    ∀ (urls : List String) (idx : Nat) (s : List ImageRow) (main : Option String)
      (ups : List Nat),
      1 ≤ idx →
      (process_listing_images_go upload eid idx urls s main ups).main_image_path
        = main := by
  intro urls
  induction urls with
  | nil =>
    intro idx s main ups _
    simp [process_listing_images_go]
  | cons u rest ih =>
    intro idx s main ups hidx
    have hid : (idx == 0) = false := beq_eq_false_iff_ne.mpr (by omega)
    cases hf : find_image_row s eid idx with
    | some row =>
      rw [go_cons_found hf]
      rw [show (if main.isNone && idx == 0 then row.storage_path else main) = main
          by simp [hid]]
      exact ih _ _ _ _ (by omega)
    | none =>
      cases hu : upload eid idx u with
      | none =>
        rw [go_cons_upload_fail hf hu]
        exact ih _ _ _ _ (by omega)
      | some path =>
        by_cases hp : path = ""
        · subst hp
          rw [go_cons_upload_empty hf hu]
          exact ih _ _ _ _ (by omega)
        · rw [go_cons_upload_ok hf hu hp]
          rw [show (if main.isNone && idx == 0 then some path else main) = main
              by simp [hid]]
          exact ih _ _ _ _ (by omega)

/-- The loop never touches rows at indices below its starting index. -/
theorem go_find_lt (upload : String → Nat → String → Option String)
    (eid : String) :
    ∀ (urls : List String) (idx : Nat) (s : List ImageRow) (main : Option String)
      (ups : List Nat) (j : Nat),
      j < idx →
      find_image_row
          (process_listing_images_go upload eid idx urls s main ups).state eid j
        = find_image_row s eid j := by
  intro urls
  induction urls with
  | nil =>
    intro idx s main ups j _
    simp [process_listing_images_go]
  | cons u rest ih =>
    intro idx s main ups j hj
    cases hf : find_image_row s eid idx with
    | some row =>
      rw [go_cons_found hf]
      exact ih _ _ _ _ _ (by omega)
    | none =>
      cases hu : upload eid idx u with
      | none =>
        rw [go_cons_upload_fail hf hu]
        exact ih _ _ _ _ _ (by omega)
      | some path =>
        by_cases hp : path = ""
        · subst hp
          rw [go_cons_upload_empty hf hu]
          exact ih _ _ _ _ _ (by omega)
        · rw [go_cons_upload_ok hf hu hp]
          rw [ih _ _ _ _ _ (show j < idx + 1 by omega)]
          exact find_image_row_append_ne (ne_of_gt hj)

/-- Running the pipeline on a fully indexed listing performs no uploads,
leaves the table unchanged, and returns the recorded index-0 path. -/
theorem go_full_skip (upload : String → Nat → String → Option String)
    (eid : String) (urls : List String) (s : List ImageRow)
    (hfull : fully_indexed s eid urls.length = true) :
    process_listing_images upload s eid urls =
      { state := s, main_image_path := main_of eid s urls, upload_calls := [] } := by
  have hall := fully_indexed_iff.mp hfull
  cases urls with
  | nil => simp [process_listing_images, process_listing_images_go, main_of]
  | cons u rest =>
    have h0 : (find_image_row s eid 0).isSome = true := hall 0 (by simp)
    obtain ⟨row, hrow⟩ := Option.isSome_iff_exists.mp h0
    unfold process_listing_images
    rw [go_cons_found hrow]
    rw [show (if (none : Option String).isNone && 0 == 0
          then row.storage_path else none) = row.storage_path by simp]
    rw [go_skip_all upload eid rest 1 s row.storage_path [] (by omega)
      (fun j hj => by
        have h2 := hall (j + 1) (by simpa using Nat.succ_lt_succ hj)
        rw [show 1 + j = j + 1 from by omega]
        exact h2)]
    simp [main_of, hrow]

/-- When a run leaves the listing fully indexed, the main image it returned
is the recorded index-0 storage path of its final table. -/
theorem run_main_eq (upload : String → Nat → String → Option String)
    (eid : String) (s0 : List ImageRow) (urls : List String)
    (hfull : fully_indexed (process_listing_images upload s0 eid urls).state eid
        urls.length = true) :
    (process_listing_images upload s0 eid urls).main_image_path =
      main_of eid (process_listing_images upload s0 eid urls).state urls := by
  cases urls with
  | nil => simp [process_listing_images, process_listing_images_go, main_of]
  | cons u rest =>
    cases hf : find_image_row s0 eid 0 with
    | some row =>
      have hrun : process_listing_images upload s0 eid (u :: rest) =
          process_listing_images_go upload eid 1 rest s0 row.storage_path [] := by
        unfold process_listing_images
        rw [go_cons_found hf]
        rfl
      rw [hrun]
      rw [go_main_stable upload eid rest 1 s0 row.storage_path [] (by omega)]
      have hstate : find_image_row
          (process_listing_images_go upload eid 1 rest s0
            row.storage_path []).state eid 0 = some row := by
        rw [go_find_lt upload eid rest 1 s0 row.storage_path [] 0 (by omega)]
        exact hf
      simp [main_of, hstate]
    | none =>
      cases hu : upload eid 0 u with
      | none =>
        exfalso
        have hrun : process_listing_images upload s0 eid (u :: rest) =
            process_listing_images_go upload eid 1 rest s0 none [0] := by
          unfold process_listing_images
          rw [go_cons_upload_fail hf hu]
          rfl
        have h0 := (fully_indexed_iff.mp hfull) 0 (by simp)
        rw [hrun, go_find_lt upload eid rest 1 s0 none [0] 0 (by omega), hf] at h0
        simp at h0
      | some path =>
        by_cases hp : path = ""
        · exfalso
          subst hp
          have hrun : process_listing_images upload s0 eid (u :: rest) =
              process_listing_images_go upload eid 1 rest s0 none [0] := by
            unfold process_listing_images
            rw [go_cons_upload_empty hf hu]
            rfl
          have h0 := (fully_indexed_iff.mp hfull) 0 (by simp)
          rw [hrun, go_find_lt upload eid rest 1 s0 none [0] 0 (by omega), hf] at h0
          simp at h0
        · have hrun : process_listing_images upload s0 eid (u :: rest) =
              process_listing_images_go upload eid 1 rest
                (s0 ++ [{ external_id := eid, image_index := 0,
                          original_url := u, storage_path := some path }])
                (some path) [0] := by
            unfold process_listing_images
            rw [go_cons_upload_ok hf hu hp]
            rfl
          rw [hrun]
          rw [go_main_stable upload eid rest 1 _ (some path) [0] (by omega)]
          have hstate : find_image_row
              (process_listing_images_go upload eid 1 rest
                (s0 ++ [{ external_id := eid, image_index := 0,
                          original_url := u, storage_path := some path }])
                (some path) [0]).state eid 0 =
              some { external_id := eid, image_index := 0,
                     original_url := u, storage_path := some path } := by
            rw [go_find_lt upload eid rest 1 _ (some path) [0] 0 (by omega)]
            rw [find_image_row_append, hf]
            simp
          simp [main_of, hstate]

/-- Claim C8: the image pipeline is idempotent and gap-filling. First, in
any run the upload/download collaborator (`upload_avif_to_r2`, modelled
from the spec) is invoked only for indices that had no `listing_images`
row at the start of the run — an index that already has a record is
never re-downloaded or re-uploaded. Second, re-running the pipeline for a
listing left fully indexed by a first run performs zero upload calls and
returns the same `main_image_path` (the storage path recorded for image
index 0) as the first run. -/
theorem process_listing_images_idempotent
    (upload : String → Nat → String → Option String)
    (s0 s : List ImageRow) (eid : String) (urls : List String)
    (hfull : fully_indexed (process_listing_images upload s0 eid urls).state eid
        urls.length = true) :
    (∀ i, i ∈ (process_listing_images upload s eid urls).upload_calls →
        find_image_row s eid i = none) ∧
    (process_listing_images upload
        (process_listing_images upload s0 eid urls).state eid urls).upload_calls
      = [] ∧
    (process_listing_images upload
        (process_listing_images upload s0 eid urls).state eid
        urls).main_image_path
      = (process_listing_images upload s0 eid urls).main_image_path := by
  refine ⟨?_, ?_, ?_⟩
  · intro i hi
    rcases go_upload_calls_missing upload eid urls 0 s none [] i hi with h | h
    · simp at h
    · exact h
  · rw [go_full_skip upload eid urls _ hfull]
  · rw [go_full_skip upload eid urls _ hfull]
    exact (run_main_eq upload eid s0 urls hfull).symm

/-- A deterministic upload collaborator for the C8 witness, following the
path scheme of the spec. -/
def c8_upload : String → Nat → String → Option String :=
  fun eid idx _ => some ("mubawab/" ++ eid ++ "/" ++ toString idx ++ ".avif")

/-- Witness for claim C8: a first run from an empty table over two image
URLs leaves the listing fully indexed; the theorem then gives that the
second run performs zero uploads and returns the first run's main image
path. -/
theorem process_listing_images_idempotent_witness :
    fully_indexed (process_listing_images c8_upload [] "a1" ["u0", "u1"]).state
        "a1" (["u0", "u1"] : List String).length = true ∧
    (process_listing_images c8_upload
        (process_listing_images c8_upload [] "a1" ["u0", "u1"]).state
        "a1" ["u0", "u1"]).upload_calls = [] ∧
    (process_listing_images c8_upload
        (process_listing_images c8_upload [] "a1" ["u0", "u1"]).state
        "a1" ["u0", "u1"]).main_image_path =
      (process_listing_images c8_upload [] "a1" ["u0", "u1"]).main_image_path := by
  have h := process_listing_images_idempotent c8_upload [] [] "a1" ["u0", "u1"]
    (by decide)
  exact ⟨by decide, h.2.1, h.2.2⟩
